import Mathlib

/-!
Verification of the FEMA / ARC shelter-feed normalizer
(`src/lib/fema-shelters.ts`, `fetchFEMAShelters`).

The runtime JSON values handled by the TypeScript code are modelled by
`JValue`; a missing property (JavaScript `undefined`) is modelled as
`Option.none` at the access site, and JSON `null` as `JValue.null`.
JavaScript numbers carry no arithmetic in this code, only pass-through
and equality, so they are modelled as rationals. The wall clock read by
`new Date().toISOString()` and the HTTP response are passed in as
explicit parameters.
-/

namespace FemaShelters

/-- A parsed JSON value as produced by `res.json()`. -/
inductive JValue where
  | null : JValue
  | bool : Bool → JValue
  | num : Rat → JValue
  | str : String → JValue
  | arr : List JValue → JValue
  | obj : List (String × JValue) → JValue

/-- Look a key up in a JSON object's field list. -/
def lookupField : List (String × JValue) → String → Option JValue
  | [], _ => none
  | (k, v) :: rest, key => if k = key then some v else lookupField rest key

/-- JavaScript property access `v.key`: `none` models `undefined`
(missing key, or access on a non-object). -/
def getProp : JValue → String → Option JValue
  | JValue.obj fields, key => lookupField fields key
  | _, _ => none

/-- The nullish-coalescing operator `v ?? d`: the default replaces both
`undefined` (missing) and `null`. -/
def jfallback (v : Option JValue) (d : JValue) : JValue :=
  match v with
  | none => d
  | some JValue.null => d
  | some x => x

/-- `f.geometry?.type`: optional chaining yields `undefined` when
`geometry` is missing, `null`, or has no `type` property. -/
def geomType (f : JValue) : Option JValue :=
  (getProp f "geometry").bind (fun g => getProp g "type")

/-- The filter predicate `f.geometry?.type === 'Point'`. -/
def isPointFeature (f : JValue) : Bool :=
  match geomType f with
  | some (JValue.str t) => t == "Point"
  | _ => false

/-- `f.geometry.coordinates` as read in the map step (the filter has
already ensured `geometry` is an object). -/
def coordsOf (f : JValue) : Option JValue :=
  (getProp f "geometry").bind (fun g => getProp g "coordinates")

/-- The guard `!Array.isArray(coords) || coords.length !== 2` followed by
the destructuring `const [longitude, latitude] = coords`: `some` exactly
when `coords` is an array of exactly two members. -/
def coordPair : Option JValue → Option (JValue × JValue)
  | some (JValue.arr [lng, lat]) => some (lng, lat)
  | _ => none

/-- The property bag, defaulted to an empty object when missing or
null. -/
def propsOf (f : JValue) : JValue :=
  jfallback (getProp f "properties") (JValue.obj [])

/-- The status derivation: `p.shelter_status === 'OPEN' ? 'OPEN'
: p.shelter_status === 'CLOSED' ? 'CLOSED' : 'UNKNOWN'`. Strict string
equality succeeds only on string values. -/
def deriveStatus (v : Option JValue) : String :=
  match v with
  | some (JValue.str t) =>
      if t = "OPEN" then "OPEN" else if t = "CLOSED" then "CLOSED" else "UNKNOWN"
  | _ => "UNKNOWN"

/-- `typeof p.total_population === 'number' ? p.total_population : null`. -/
def toPopulation : Option JValue → JValue
  | some (JValue.num q) => JValue.num q
  | _ => JValue.null

/-- The output record type `Shelter`. Fields copied verbatim from the
property bag keep the raw JSON value (`Option JValue` where the code can
leave `undefined`); `status`, `source` and `last_updated` are the strings
the code builds. -/
structure Shelter where
  shelter_id : Option JValue
  name : JValue
  address : JValue
  city : JValue
  state : JValue
  zip : JValue
  status : String
  latitude : JValue
  longitude : JValue
  total_population : JValue
  ada_compliant : JValue
  wheelchair_accessible : JValue
  pet_accommodations : JValue
  source : String
  last_updated : String

/-- The record literal built in the map step, for a feature `f` whose
coordinate pair destructured to `(lng, lat)`; `now` is the wall-clock
ISO string. -/
def buildShelter (now : String) (f lng lat : JValue) : Shelter :=
  let p := propsOf f
  { shelter_id := getProp p "shelter_id"
    name := jfallback (getProp p "shelter_name") (JValue.str "Unknown Shelter")
    address := jfallback (getProp p "address") (JValue.str "")
    city := jfallback (getProp p "city") (JValue.str "")
    state := jfallback (getProp p "state") (JValue.str "")
    zip := jfallback (getProp p "zip") (JValue.str "")
    status := deriveStatus (getProp p "shelter_status")
    latitude := lat
    longitude := lng
    total_population := toPopulation (getProp p "total_population")
    ada_compliant := jfallback (getProp p "ada_compliant") JValue.null
    wheelchair_accessible := jfallback (getProp p "wheelchair_accessible") JValue.null
    pet_accommodations := jfallback (getProp p "pet_accommodations_code") JValue.null
    source := "FEMA / ARC (National Shelter System)"
    last_updated := now }

/-- The arrow function of the `.map` step: `Shelter | null` becomes
`Option Shelter`. -/
def mapFeature (now : String) (f : JValue) : Option Shelter :=
  (coordPair (coordsOf f)).map (fun q => buildShelter now f q.1 q.2)

/-- The post-validation pipeline
`features.filter(Point).map(toShelter).filter(Boolean)`. -/
def normalizeFeatures (now : String) (features : List JValue) : List Shelter :=
  ((features.filter isPointFeature).map (mapFeature now)).filterMap id

/-- The check `!geojson?.features || !Array.isArray(geojson.features)`:
the payload passes exactly when its `features` property is an array
(arrays are truthy; every non-array value either fails `Array.isArray`
or is `undefined`). -/
def featuresOf (geojson : JValue) : Option (List JValue) :=
  match getProp geojson "features" with
  | some (JValue.arr xs) => some xs
  | _ => none

/-- The transport response as seen by the function: `res.ok`,
`res.statusText`, and the already-parsed JSON body. -/
structure Response where
  ok : Bool
  statusText : String
  body : JValue

/-- `fetchFEMAShelters`, with the transport response and the wall clock
as explicit inputs; `throw new Error(msg)` becomes `Except.error msg`. -/
def fetchFEMAShelters (res : Response) (now : String) : Except String (List Shelter) :=
  if !res.ok then
    Except.error ("Failed to fetch FEMA shelters: " ++ res.statusText)
  else
    match featuresOf res.body with
    | none => Except.error "Invalid GeoJSON response from ArcGIS"
    | some features => Except.ok (normalizeFeatures now features)

/-- Erase the wall-clock stamp of a record, for comparing runs made at
different times. -/
def scrub (s : Shelter) : Shelter :=
  { s with last_updated := "" }

/-!
Exception-aware model of the per-element pipeline. In JavaScript an
unguarded property access on `null` throws a TypeError, and the optional
chaining in `f.geometry?.type` guards only the value of `f.geometry`,
not `f` itself: a features element that is JSON `null` aborts the whole
call inside the `.filter` callback. The pure definitions above are exact
for elements that are not JSON `null` (property access on a non-null
primitive merely yields `undefined`); the definitions below add the
thrown-TypeError path, threaded as `Except`.
-/

/-- Property access `v.key` with the JavaScript throw path: reading a
property of `null` throws a TypeError; every other non-object receiver
yields `undefined`. -/
def getPropE (v : JValue) (key : String) : Except String (Option JValue) :=
  match v with
  | JValue.null =>
      Except.error ("TypeError: Cannot read properties of null (reading " ++ key ++ ")")
  | JValue.obj fields => Except.ok (lookupField fields key)
  | _ => Except.ok none

/-- `f.geometry?.type` with the throw path: the access `f.geometry` can
throw (when `f` is `null`); the `?.` then short-circuits only a nullish
geometry value before reading `type`. -/
def geomTypeE (f : JValue) : Except String (Option JValue) :=
  (getPropE f "geometry").bind (fun g =>
    match g with
    | none => Except.ok none
    | some JValue.null => Except.ok none
    | some v => getPropE v "type")

/-- The filter predicate `f.geometry?.type === 'Point'` with the throw
path. -/
def isPointFeatureE (f : JValue) : Except String Bool :=
  (geomTypeE f).map (fun t =>
    match t with
    | some (JValue.str s) => s == "Point"
    | _ => false)

/-- `f.geometry.coordinates` in the map step, with the throw path: here
the geometry access is unguarded, so a missing or null geometry also
throws. -/
def coordsOfE (f : JValue) : Except String (Option JValue) :=
  (getPropE f "geometry").bind (fun g =>
    match g with
    | none => Except.error "TypeError: Cannot read properties of undefined (reading coordinates)"
    | some v => getPropE v "coordinates")

/-- The map-step callback with the throw paths of its two reads, in
source order: `f.geometry.coordinates` first, then `f.properties`. When
both reads succeed the record built is the pure one: for a non-throwing
`f` the bag read agrees with `propsOf f`, which `buildShelter` uses. -/
def mapFeatureE (now : String) (f : JValue) : Except String (Option Shelter) :=
  (coordsOfE f).bind (fun coords =>
    (getPropE f "properties").map (fun _props =>
      (coordPair coords).map (fun q => buildShelter now f q.1 q.2)))

/-- `features.filter(f => f.geometry?.type === 'Point')` with the throw
path: the callback runs left to right and the first thrown TypeError
aborts the traversal. -/
def filterPointsE : List JValue → Except String (List JValue)
  | [] => Except.ok []
  | f :: rest =>
      (isPointFeatureE f).bind (fun b =>
        (filterPointsE rest).map (fun kept => if b then f :: kept else kept))

/-- The `.map` traversal over the filter survivors, left to right, with
the throw path. -/
def mapShelE (now : String) : List JValue → Except String (List (Option Shelter))
  | [] => Except.ok []
  | f :: rest =>
      (mapFeatureE now f).bind (fun s =>
        (mapShelE now rest).map (fun ss => s :: ss))

/-- The post-validation pipeline with the thrown-TypeError path: the
filter traversal completes (or aborts) first, then the map traversal
runs on the survivors, then `filter(Boolean)` drops the nulls. -/
def normalizeFeaturesE (now : String) (features : List JValue) : Except String (List Shelter) :=
  (filterPointsE features).bind (fun kept =>
    (mapShelE now kept).map (fun ss => ss.filterMap id))

theorem mapFeature_coords (now : String) (f lng lat : JValue)
    (h : coordsOf f = some (JValue.arr [lng, lat])) :
    mapFeature now f = some (buildShelter now f lng lat) := by
  unfold mapFeature
  rw [h]
  rfl

theorem mapFeature_some (now : String) (f : JValue) (s : Shelter)
    (h : mapFeature now f = some s) :
    ∃ lng lat, coordPair (coordsOf f) = some (lng, lat) ∧ s = buildShelter now f lng lat := by
  unfold mapFeature at h
  cases hc : coordPair (coordsOf f) with
  | none => rw [hc] at h; exact Option.noConfusion h
  | some q =>
    rw [hc] at h
    exact ⟨q.1, q.2, rfl, (Option.some.inj h).symm⟩

theorem normalizeFeatures_append (now : String) (l1 l2 : List JValue) :
    normalizeFeatures now (l1 ++ l2) =
      normalizeFeatures now l1 ++ normalizeFeatures now l2 := by
  unfold normalizeFeatures
  rw [List.filter_append, List.map_append, List.filterMap_append]

theorem normalizeFeatures_singleton (now : String) (f : JValue) (s : Shelter)
    (hpt : isPointFeature f = true) (hm : mapFeature now f = some s) :
    normalizeFeatures now [f] = [s] := by
  unfold normalizeFeatures
  simp [List.filter_cons, hpt, hm]

theorem scrub_mapFeature (now1 now2 : String) (f : JValue) :
    Option.map scrub (mapFeature now1 f) = Option.map scrub (mapFeature now2 f) := by
  unfold mapFeature
  cases hc : coordPair (coordsOf f) with
  | none => rfl
  | some q => rfl

theorem deriveStatus_mem (v : Option JValue) :
    deriveStatus v = "OPEN" ∨ deriveStatus v = "CLOSED" ∨ deriveStatus v = "UNKNOWN" := by
  unfold deriveStatus
  cases v with
  | none => right; right; rfl
  | some w =>
    cases w with
    | str t =>
      by_cases h1 : t = "OPEN"
      · left; simp [h1]
      · by_cases h2 : t = "CLOSED"
        · right; left; simp [h1, h2]
        · right; right; simp [h1, h2]
    | null => right; right; rfl
    | bool b => right; right; rfl
    | num q => right; right; rfl
    | arr xs => right; right; rfl
    | obj fs => right; right; rfl

theorem deriveStatus_default (v : Option JValue)
    (h1 : v ≠ some (JValue.str "OPEN")) (h2 : v ≠ some (JValue.str "CLOSED")) :
    deriveStatus v = "UNKNOWN" := by
  unfold deriveStatus
  cases v with
  | none => rfl
  | some w =>
    cases w with
    | str t =>
      have ht1 : ¬ t = "OPEN" := fun he => h1 (by rw [he])
      have ht2 : ¬ t = "CLOSED" := fun he => h2 (by rw [he])
      simp [ht1, ht2]
    | null => rfl
    | bool b => rfl
    | num q => rfl
    | arr xs => rfl
    | obj fs => rfl

/-- A well-formed Point feature whose property bag carries misleading
`latitude`/`longitude` fields. -/
def pointFeatureEx : JValue :=
  JValue.obj
    [("geometry", JValue.obj
        [("type", JValue.str "Point"),
         ("coordinates", JValue.arr [JValue.num (-2), JValue.num 3])]),
     ("properties", JValue.obj
        [("latitude", JValue.num 99), ("longitude", JValue.num 88)])]

/-- A Point feature whose two coordinate members are strings, not
numbers. -/
def stringCoordFeature : JValue :=
  JValue.obj
    [("geometry", JValue.obj
        [("type", JValue.str "Point"),
         ("coordinates", JValue.arr [JValue.str "a", JValue.str "b"])]),
     ("properties", JValue.obj [])]

/-- A feature with Polygon geometry. -/
def polygonFeature : JValue :=
  JValue.obj
    [("geometry", JValue.obj
        [("type", JValue.str "Polygon"),
         ("coordinates", JValue.arr [])]),
     ("properties", JValue.obj [("shelter_name", JValue.str "Poly")])]

/-- A Point feature whose `total_population` property is a string. -/
def stringPopFeature : JValue :=
  JValue.obj
    [("geometry", JValue.obj
        [("type", JValue.str "Point"),
         ("coordinates", JValue.arr [JValue.num 1, JValue.num 2])]),
     ("properties", JValue.obj [("total_population", JValue.str "12")])]

/-- Claim C1: for every feature with Point geometry and a two-element
numeric coordinate pair, the emitted record's latitude is exactly
`coordinates[1]` and its longitude exactly `coordinates[0]`, regardless
of any latitude/longitude fields in the properties bag (the feature `f`
is universally quantified, so its property bag is arbitrary). -/
theorem point_coordinates_swap
    (features : List JValue) (now : String) (f : JValue) (lng lat : Rat)
    (hmem : f ∈ features)
    (hpt : isPointFeature f = true)
    (hco : coordsOf f = some (JValue.arr [JValue.num lng, JValue.num lat])) :
    ∃ s, s ∈ normalizeFeatures now features ∧
      mapFeature now f = some s ∧
      s.latitude = JValue.num lat ∧ s.longitude = JValue.num lng := by
  have hm : mapFeature now f = some (buildShelter now f (JValue.num lng) (JValue.num lat)) :=
    mapFeature_coords now f _ _ hco
  refine ⟨buildShelter now f (JValue.num lng) (JValue.num lat), ?_, hm, rfl, rfl⟩
  unfold normalizeFeatures
  apply List.mem_filterMap.mpr
  refine ⟨some (buildShelter now f (JValue.num lng) (JValue.num lat)), ?_, rfl⟩
  apply List.mem_map.mpr
  exact ⟨f, List.mem_filter.mpr ⟨hmem, hpt⟩, hm⟩

/-- Witness for C1 at a concrete feature whose properties carry decoy
latitude/longitude values. -/
theorem point_coordinates_swap_witness :
    ∃ s, s ∈ normalizeFeatures "2026-10-11T00:00:00.000Z" [pointFeatureEx] ∧
      mapFeature "2026-10-11T00:00:00.000Z" pointFeatureEx = some s ∧
      s.latitude = JValue.num 3 ∧ s.longitude = JValue.num (-2) :=
  point_coordinates_swap [pointFeatureEx] "2026-10-11T00:00:00.000Z" pointFeatureEx
    (-2) 3 (List.mem_singleton.mpr rfl) rfl rfl

/-- Claim C2 evaluation: a Point feature whose two coordinate members
are strings is NOT discarded; the code emits a record whose latitude and
longitude are those strings, contradicting both the claim and the
declared `latitude: number` / `longitude: number` field types. -/
theorem string_coordinates_not_discarded :
    ∃ s, normalizeFeatures "t" [stringCoordFeature] = [s] ∧
      s.latitude = JValue.str "b" ∧ s.longitude = JValue.str "a" ∧
      (∀ q : Rat, s.latitude ≠ JValue.num q) :=
  ⟨buildShelter "t" stringCoordFeature (JValue.str "a") (JValue.str "b"),
    rfl, rfl, rfl, fun _ h => JValue.noConfusion h⟩

theorem isPointFeature_false (f : JValue)
    (h : geomType f ≠ some (JValue.str "Point")) :
    isPointFeature f = false := by
  unfold isPointFeature
  cases hg : geomType f with
  | none => rfl
  | some v =>
    cases v with
    | str t =>
      have ht : ¬ t = "Point" := fun he => h (by rw [hg, he])
      simp [ht]
    | null => rfl
    | bool b => rfl
    | num q => rfl
    | arr xs => rfl
    | obj fs => rfl

theorem getPropE_ok (v : JValue) (key : String) (h : v ≠ JValue.null) :
    getPropE v key = Except.ok (getProp v key) := by
  cases v with
  | null => exact absurd rfl h
  | bool b => rfl
  | num q => rfl
  | str s => rfl
  | arr xs => rfl
  | obj fs => rfl

theorem geomTypeE_ok (f : JValue) (h : f ≠ JValue.null) :
    geomTypeE f = Except.ok (geomType f) := by
  unfold geomTypeE geomType
  rw [getPropE_ok f "geometry" h]
  cases hg : getProp f "geometry" with
  | none => rfl
  | some v =>
    cases v with
    | null => rfl
    | bool b => rfl
    | num q => rfl
    | str s => rfl
    | arr xs => rfl
    | obj fs => rfl

theorem isPointFeatureE_ok (f : JValue) (h : f ≠ JValue.null) :
    isPointFeatureE f = Except.ok (isPointFeature f) := by
  unfold isPointFeatureE isPointFeature
  rw [geomTypeE_ok f h]
  rfl

theorem filterPointsE_middle (l1 l2 : List JValue) (f : JValue)
    (hb : isPointFeatureE f = Except.ok false) :
    filterPointsE (l1 ++ f :: l2) = filterPointsE (l1 ++ l2) := by
  induction l1 with
  | nil =>
    show filterPointsE (f :: l2) = filterPointsE l2
    have h1 : filterPointsE (f :: l2) = (isPointFeatureE f).bind (fun b =>
        (filterPointsE l2).map (fun kept => if b then f :: kept else kept)) := rfl
    rw [h1, hb]
    cases hr : filterPointsE l2 with
    | ok kept => rfl
    | error e => rfl
  | cons a l1 ih =>
    have h1 : ∀ t, filterPointsE (a :: t) = (isPointFeatureE a).bind (fun b =>
        (filterPointsE t).map (fun kept => if b then a :: kept else kept)) := fun t => rfl
    show filterPointsE (a :: (l1 ++ f :: l2)) = filterPointsE (a :: (l1 ++ l2))
    rw [h1, h1, ih]

/-- Claim C3 counterexample: a features element that is JSON `null` has
a non-Point geometry type reading, yet the run is not a silent discard:
it aborts with a thrown TypeError and produces no output at all, because
the optional chaining in the filter callback guards only the geometry
value, not the element itself. -/
theorem null_feature_raises :
    geomType JValue.null ≠ some (JValue.str "Point") ∧
    normalizeFeaturesE "t" [JValue.null] =
      Except.error "TypeError: Cannot read properties of null (reading geometry)" ∧
    (∀ out : List Shelter, normalizeFeaturesE "t" [JValue.null] ≠ Except.ok out) := by
  have h2 : normalizeFeaturesE "t" [JValue.null] =
      Except.error "TypeError: Cannot read properties of null (reading geometry)" := rfl
  exact ⟨fun h => Option.noConfusion h, h2, fun out hout => Except.noConfusion (h2 ▸ hout)⟩

/-- Claim C3 (amended): a feature that is not JSON `null` and whose
geometry type is not "Point" (including a missing geometry, where the
chained access merely yields `undefined`) contributes no record and
raises no error: the exception-aware pipeline result is unchanged when
the feature is removed. A JSON-null element instead aborts the call with
a TypeError. -/
theorem non_point_nonnull_feature_dropped
    (now : String) (l1 l2 : List JValue) (f : JValue)
    (hnn : f ≠ JValue.null)
    (h : geomType f ≠ some (JValue.str "Point")) :
    normalizeFeaturesE now (l1 ++ f :: l2) = normalizeFeaturesE now (l1 ++ l2) := by
  have hb : isPointFeatureE f = Except.ok false := by
    rw [isPointFeatureE_ok f hnn, isPointFeature_false f h]
  unfold normalizeFeaturesE
  rw [filterPointsE_middle l1 l2 f hb]

/-- Witness for the amended C3: a Polygon feature between two Point
features drops out of the exception-aware pipeline. -/
theorem non_point_nonnull_feature_dropped_witness :
    normalizeFeaturesE "t" ([pointFeatureEx] ++ polygonFeature :: [stringPopFeature]) =
      normalizeFeaturesE "t" ([pointFeatureEx] ++ [stringPopFeature]) :=
  non_point_nonnull_feature_dropped "t" [pointFeatureEx] [stringPopFeature] polygonFeature
    (fun h => JValue.noConfusion h)
    (by intro h; simp [polygonFeature, geomType, getProp, lookupField] at h)

/-- Claim C4: every emitted record's status is one of exactly OPEN,
CLOSED, UNKNOWN; and it is UNKNOWN whenever the source
`properties.shelter_status` is anything other than the exact literal
strings "OPEN" or "CLOSED" (including when it is absent). -/
theorem status_enum_unknown_default
    (now : String) (f : JValue) (s : Shelter)
    (h : mapFeature now f = some s) :
    (s.status = "OPEN" ∨ s.status = "CLOSED" ∨ s.status = "UNKNOWN") ∧
    (getProp (propsOf f) "shelter_status" ≠ some (JValue.str "OPEN") →
     getProp (propsOf f) "shelter_status" ≠ some (JValue.str "CLOSED") →
     s.status = "UNKNOWN") := by
  obtain ⟨lng, lat, hc, hs⟩ := mapFeature_some now f s h
  have he : s.status = deriveStatus (getProp (propsOf f) "shelter_status") := by
    rw [hs]; rfl
  rw [he]
  exact ⟨deriveStatus_mem _, fun h1 h2 => deriveStatus_default _ h1 h2⟩

/-- Witness for C4 at a concrete feature with no `shelter_status`
property: the status is UNKNOWN. -/
theorem status_enum_unknown_default_witness :
    ((buildShelter "t" pointFeatureEx (JValue.num (-2)) (JValue.num 3)).status = "OPEN" ∨
     (buildShelter "t" pointFeatureEx (JValue.num (-2)) (JValue.num 3)).status = "CLOSED" ∨
     (buildShelter "t" pointFeatureEx (JValue.num (-2)) (JValue.num 3)).status = "UNKNOWN") ∧
    (getProp (propsOf pointFeatureEx) "shelter_status" ≠ some (JValue.str "OPEN") →
     getProp (propsOf pointFeatureEx) "shelter_status" ≠ some (JValue.str "CLOSED") →
     (buildShelter "t" pointFeatureEx (JValue.num (-2)) (JValue.num 3)).status = "UNKNOWN") :=
  status_enum_unknown_default "t" pointFeatureEx
    (buildShelter "t" pointFeatureEx (JValue.num (-2)) (JValue.num 3)) rfl

/-- Claim C5: every emitted record's `total_population` is either a
number taken verbatim from the source property, or `null`; a
non-numeric source value (string, object, array, boolean, null, or
missing) always yields `null`, never a coerced value. -/
theorem total_population_not_coerced
    (now : String) (f : JValue) (s : Shelter)
    (h : mapFeature now f = some s) :
    (∃ q : Rat, getProp (propsOf f) "total_population" = some (JValue.num q) ∧
        s.total_population = JValue.num q) ∨
    ((∀ q : Rat, getProp (propsOf f) "total_population" ≠ some (JValue.num q)) ∧
        s.total_population = JValue.null) := by
  obtain ⟨lng, lat, hc, hs⟩ := mapFeature_some now f s h
  have he : s.total_population = toPopulation (getProp (propsOf f) "total_population") := by
    rw [hs]; rfl
  rw [he]
  cases hv : getProp (propsOf f) "total_population" with
  | none => exact Or.inr ⟨fun q hq => Option.noConfusion hq, rfl⟩
  | some v =>
    cases v with
    | num q => exact Or.inl ⟨q, rfl, rfl⟩
    | null => exact Or.inr ⟨fun q hq => JValue.noConfusion (Option.some.inj hq), rfl⟩
    | bool b => exact Or.inr ⟨fun q hq => JValue.noConfusion (Option.some.inj hq), rfl⟩
    | str t => exact Or.inr ⟨fun q hq => JValue.noConfusion (Option.some.inj hq), rfl⟩
    | arr xs => exact Or.inr ⟨fun q hq => JValue.noConfusion (Option.some.inj hq), rfl⟩
    | obj fs => exact Or.inr ⟨fun q hq => JValue.noConfusion (Option.some.inj hq), rfl⟩

/-- Witness for C5 at a concrete feature whose `total_population` is the
string "12": the output field is `null`, not a coerced number. -/
theorem total_population_not_coerced_witness :
    (∃ q : Rat, getProp (propsOf stringPopFeature) "total_population" = some (JValue.num q) ∧
        (buildShelter "t" stringPopFeature (JValue.num 1) (JValue.num 2)).total_population
          = JValue.num q) ∨
    ((∀ q : Rat, getProp (propsOf stringPopFeature) "total_population" ≠ some (JValue.num q)) ∧
        (buildShelter "t" stringPopFeature (JValue.num 1) (JValue.num 2)).total_population
          = JValue.null) :=
  total_population_not_coerced "t" stringPopFeature
    (buildShelter "t" stringPopFeature (JValue.num 1) (JValue.num 2)) rfl

/-- Claim C6: when the parsed payload's `features` property is not an
array (missing, or any non-array value), the call fails with the
invalid-format error message — textually distinct from the transport
error — and so produces zero records. -/
theorem invalid_format_rejected
    (res : Response) (now : String)
    (hok : res.ok = true)
    (hfe : ∀ xs : List JValue, getProp res.body "features" ≠ some (JValue.arr xs)) :
    fetchFEMAShelters res now = Except.error "Invalid GeoJSON response from ArcGIS" ∧
    (∀ out : List Shelter, fetchFEMAShelters res now ≠ Except.ok out) := by
  have hf : featuresOf res.body = none := by
    unfold featuresOf
    cases hg : getProp res.body "features" with
    | none => rfl
    | some v =>
      cases v with
      | arr xs => exact absurd hg (hfe xs)
      | null => rfl
      | bool b => rfl
      | num q => rfl
      | str t => rfl
      | obj fs => rfl
  have h1 : fetchFEMAShelters res now = Except.error "Invalid GeoJSON response from ArcGIS" := by
    unfold fetchFEMAShelters
    rw [hok, hf]
    rfl
  exact ⟨h1, fun out hout => Except.noConfusion (h1 ▸ hout)⟩

/-- Witness for C6: a payload that is an object with no `features` key is
rejected with the fixed invalid-format message. -/
theorem invalid_format_rejected_witness :
    fetchFEMAShelters ⟨true, "OK", JValue.obj [("type", JValue.str "FeatureCollection")]⟩ "t"
        = Except.error "Invalid GeoJSON response from ArcGIS" ∧
    (∀ out : List Shelter,
      fetchFEMAShelters ⟨true, "OK", JValue.obj [("type", JValue.str "FeatureCollection")]⟩ "t"
        ≠ Except.ok out) :=
  invalid_format_rejected ⟨true, "OK", JValue.obj [("type", JValue.str "FeatureCollection")]⟩
    "t" rfl (fun _ h => Option.noConfusion h)

/-- Claim C7: when the transport response is not successful, the call
fails with an error whose message is the fetch-failure text followed by
the status description, and no record list is produced. -/
theorem transport_failure_error
    (res : Response) (now : String) (hok : res.ok = false) :
    fetchFEMAShelters res now =
      Except.error ("Failed to fetch FEMA shelters: " ++ res.statusText) ∧
    (∀ out : List Shelter, fetchFEMAShelters res now ≠ Except.ok out) := by
  have h1 : fetchFEMAShelters res now =
      Except.error ("Failed to fetch FEMA shelters: " ++ res.statusText) := by
    unfold fetchFEMAShelters
    rw [hok]
    rfl
  exact ⟨h1, fun out hout => Except.noConfusion (h1 ▸ hout)⟩

/-- Witness for C7 at a concrete 500 response. -/
theorem transport_failure_error_witness :
    fetchFEMAShelters ⟨false, "Internal Server Error", JValue.null⟩ "t" =
      Except.error ("Failed to fetch FEMA shelters: " ++
        (Response.mk false "Internal Server Error" JValue.null).statusText) ∧
    (∀ out : List Shelter,
      fetchFEMAShelters ⟨false, "Internal Server Error", JValue.null⟩ "t" ≠ Except.ok out) :=
  transport_failure_error ⟨false, "Internal Server Error", JValue.null⟩ "t" rfl

/-- Claim C8: the output preserves the relative order of the input
features: whenever feature `f` precedes feature `g` in the features list
and both yield records `s` and `t`, then `s` precedes `t` in the
output. -/
theorem output_order_preserved
    (now : String) (l1 l2 l3 : List JValue) (f g : JValue) (s t : Shelter)
    (hf : isPointFeature f = true) (hg : isPointFeature g = true)
    (hfs : mapFeature now f = some s) (hgt : mapFeature now g = some t) :
    ∃ m1 m2 m3, normalizeFeatures now (l1 ++ f :: (l2 ++ g :: l3)) =
      m1 ++ s :: (m2 ++ t :: m3) := by
  refine ⟨normalizeFeatures now l1, normalizeFeatures now l2, normalizeFeatures now l3, ?_⟩
  have h1 : l1 ++ f :: (l2 ++ g :: l3) = l1 ++ ([f] ++ (l2 ++ ([g] ++ l3))) := by simp
  rw [h1, normalizeFeatures_append, normalizeFeatures_append, normalizeFeatures_append,
    normalizeFeatures_append, normalizeFeatures_singleton now f s hf hfs,
    normalizeFeatures_singleton now g t hg hgt]
  simp

/-- Witness for C8: two concrete Point features in order. -/
theorem output_order_preserved_witness :
    ∃ m1 m2 m3, normalizeFeatures "t" ([] ++ pointFeatureEx :: ([] ++ stringPopFeature :: [])) =
      m1 ++ (buildShelter "t" pointFeatureEx (JValue.num (-2)) (JValue.num 3)) ::
        (m2 ++ (buildShelter "t" stringPopFeature (JValue.num 1) (JValue.num 2)) :: m3) :=
  output_order_preserved "t" [] [] [] pointFeatureEx stringPopFeature
    (buildShelter "t" pointFeatureEx (JValue.num (-2)) (JValue.num 3))
    (buildShelter "t" stringPopFeature (JValue.num 1) (JValue.num 2))
    rfl rfl rfl rfl

theorem scrub_normalize (now1 now2 : String) (fs : List JValue) :
    List.map scrub (normalizeFeatures now1 fs) = List.map scrub (normalizeFeatures now2 fs) := by
  unfold normalizeFeatures
  rw [List.map_filterMap, List.map_filterMap, List.filterMap_map, List.filterMap_map]
  have hfun : ((fun x => Option.map scrub (id x)) ∘ mapFeature now1) =
      ((fun x => Option.map scrub (id x)) ∘ mapFeature now2) :=
    funext (fun a => scrub_mapFeature now1 now2 a)
  rw [hfun]

/-- Claim C9: the normalization is deterministic modulo the wall-clock
stamp: two runs on the identical transport response, at possibly
different times, produce identical results except for the
`last_updated` field of each record. -/
theorem deterministic_modulo_timestamp
    (res : Response) (now1 now2 : String) :
    (fetchFEMAShelters res now1).map (List.map scrub) =
      (fetchFEMAShelters res now2).map (List.map scrub) := by
  unfold fetchFEMAShelters
  cases hok : res.ok with
  | false => rfl
  | true =>
    cases hf : featuresOf res.body with
    | none => rfl
    | some fs =>
      show Except.ok (List.map scrub (normalizeFeatures now1 fs)) =
        Except.ok (List.map scrub (normalizeFeatures now2 fs))
      rw [scrub_normalize now1 now2 fs]

/-- Claim C10: for a payload passing the top-level shape check, each
feature contributes at most one record: the output is no longer than the
`features` array. -/
theorem output_count_bounded
    (res : Response) (now : String) (fs : List JValue) (out : List Shelter)
    (hfe : featuresOf res.body = some fs)
    (hout : fetchFEMAShelters res now = Except.ok out) :
    out.length ≤ fs.length := by
  have hok : res.ok = true := by
    cases h : res.ok with
    | true => rfl
    | false =>
      unfold fetchFEMAShelters at hout
      rw [h] at hout
      exact Except.noConfusion hout
  unfold fetchFEMAShelters at hout
  rw [hok, hfe] at hout
  have heq : normalizeFeatures now fs = out := Except.ok.inj hout
  rw [← heq]
  unfold normalizeFeatures
  calc (((fs.filter isPointFeature).map (mapFeature now)).filterMap id).length
      ≤ ((fs.filter isPointFeature).map (mapFeature now)).length :=
        List.length_filterMap_le id _
    _ = (fs.filter isPointFeature).length := List.length_map _ _
    _ ≤ fs.length := List.length_filter_le _ _

/-- Witness for C10: a two-feature payload, one feature dropped, yields
one record out of two features. -/
theorem output_count_bounded_witness :
    ([buildShelter "t" pointFeatureEx (JValue.num (-2)) (JValue.num 3)].length ≤
      [pointFeatureEx, polygonFeature].length) :=
  output_count_bounded
    ⟨true, "OK", JValue.obj [("features", JValue.arr [pointFeatureEx, polygonFeature])]⟩
    "t" [pointFeatureEx, polygonFeature]
    [buildShelter "t" pointFeatureEx (JValue.num (-2)) (JValue.num 3)]
    rfl rfl

end FemaShelters
